import Mathlib

/-!
Shallow embedding of the multi-round tool-orchestration loop of
backend/ai_generator.py (class AIGenerator).

The fallible collaborators are modelled as Except-valued functions:
the language-model service receives the built request parameters and
either returns a response or raises (Except.error), and every tool
capability (method execute_tool of the tool manager) either returns a
result string or raises.  The embedding eliminates each Except exactly
at the try/except sites of the source; Python strings are Lean
strings, str.strip() is modelled by pyStrip (structural recursion over
the character list), and the duck-typed response objects are the
inductive ContentBlock / structure Response below.

generate_response is instrumented with ghost observables that the
Python code produces as side effects: one RoundRecord per invocation
of the language-model service (carrying the exception raised by the
service, if any, the response object used afterwards, the message list
passed to the service, and the tool results gathered in that round),
plus the final message list.  The answer string returned by the Python
method is the field answer of the resulting ExchangeResult.

generate_responseE is the same control flow written in the Except
monad, where a failure that escaped a catch site would propagate to
the caller; it is proved to always return Except.ok.
-/

namespace AIGen

/-- Keyword arguments of one tool invocation (the mapping passed as
content_block.input and splatted into execute_tool). -/
abbrev ToolInput := List (String × String)

/-- One content block of a model response: either a text block (an
object with a text attribute) or a tool-use block (type "tool_use",
with an id, a tool name and input arguments). -/
inductive ContentBlock where
  | text (text : String)
  | tool_use (id : String) (name : String) (input : ToolInput)
deriving DecidableEq

/-- A model response object: stop_reason plus the ordered content blocks. -/
structure Response where
  stop_reason : String
  content : List ContentBlock
deriving DecidableEq

/-- One tool_result entry appended to the conversation. -/
structure ToolResult where
  tool_use_id : String
  content : String
deriving DecidableEq

/-- The content of one conversation message: the initial user query is
plain text, an assistant turn carries the raw response blocks, and a
tool-result turn carries the ordered tool results. -/
inductive MessageContent where
  | text (t : String)
  | blocks (bs : List ContentBlock)
  | results (rs : List ToolResult)
deriving DecidableEq

/-- One conversation message (a role/content dictionary in the source). -/
structure Message where
  role : String
  content : MessageContent
deriving DecidableEq

/-- A tool schema entry, as passed through to the service unchanged. -/
abbrev ToolSchema := String

/-- The request parameters built for one service call (base_params are
constants of the instance and are omitted). -/
structure ApiParams where
  system : String
  messages : List Message
  tools : Option (List ToolSchema)
  tool_choice : Option String

/-- A behavior of the language-model service: for the built request it
either returns a response or raises. -/
abbrev Service := ApiParams → Except String Response

/-- The tool manager: execute_tool either returns a result string or
raises. -/
structure ToolManager where
  execute_tool : String → ToolInput → Except String String

/-- Drops leading whitespace characters. -/
def dropLeadingWS : List Char → List Char
  | [] => []
  | c :: cs => if c.isWhitespace then dropLeadingWS cs else c :: cs

/-- Model of Python str.strip(): removes leading and trailing
whitespace. -/
def pyStrip (s : String) : String :=
  String.mk ((dropLeadingWS (dropLeadingWS s.data).reverse).reverse)

/-- Model of " ".join(list): elements joined with single spaces. -/
def joinSpace : List String → String
  | [] => ""
  | [s] => s
  | s :: s2 :: rest => s ++ " " ++ joinSpace (s2 :: rest)

/-- The static system prompt of AIGenerator. -/
def SYSTEM_PROMPT : String := " You are an AI assistant specialized in course materials and educational content with access to comprehensive search tools for course information.\n\nAvailable Tools:\n1. **search_course_content**: For searching specific course content and materials\n2. **get_course_outline**: For retrieving complete course outlines with all lesson details\n\nTool Usage Guidelines:\n- Use **search_course_content** for questions about specific course content or detailed educational materials\n- Use **get_course_outline** for course overview requests, lesson lists, or structural information about courses\n- **You can make up to 2 rounds of tool calls** to thoroughly answer complex questions\n- **Progressive search strategy**: Start with broader searches, then narrow down based on initial results\n- **Sequential reasoning**: Each tool call should build on previous results when multiple rounds are needed\n- For outline queries, ensure you return the course title, course link, and complete lesson list with lesson numbers and titles\n- Synthesize tool results into accurate, fact-based responses\n- If tools yield no results, state this clearly without offering alternatives\n- **When you have sufficient information to provide a complete answer, respond without additional tool calls**\n\nResponse Protocol:\n- **General knowledge questions**: Answer using existing knowledge without using tools\n- **Course content questions**: Use search_course_content tool first, then answer\n- **Course outline/structure questions**: Use get_course_outline tool first, then answer\n- **Complex queries requiring multiple searches**: Use tools sequentially to build comprehensive understanding\n- **No meta-commentary**:\n - Provide direct answers only â€” no reasoning process, tool explanations, or question-type analysis\n - Do not mention \"based on the search results\" or \"using the tool\"\n\nAll responses must be:\n1. **Brief, Concise and focused** - Get to the point quickly\n2. **Educational** - Maintain instructional value\n3. **Clear** - Use accessible language\n4. **Example-supported** - Include relevant examples when they aid understanding\nProvide only the direct answer to what was asked.\n"

/-- The fixed fallback string of _extract_final_response. -/
def FALLBACK_MESSAGE : String :=
  "I wasn\x27t able to generate a proper response. Please try rephrasing your question."

/-- The fixed message returned when tools are requested but no tool
manager is configured. -/
def NO_TOOL_MANAGER_MESSAGE : String :=
  "I cannot execute tools without a tool manager. Please try rephrasing your question."

/-- Method _build_system_content: appends the conversation history to
the system prompt when the history is truthy. -/
def _build_system_content (conversation_history : Option String) (max_rounds : Nat) : String :=
  match conversation_history with
  | some h =>
      if h = "" then SYSTEM_PROMPT
      else SYSTEM_PROMPT ++ "\n\nPrevious conversation:\n" ++ h
  | none => SYSTEM_PROMPT

/-- Method _add_round_context: annotates the system content with the
round counter when more than one round is allowed. -/
def _add_round_context (system_content : String) (round_num max_rounds : Nat) : String :=
  if 1 < max_rounds then
    system_content ++
      (if round_num = max_rounds then
        "\n\nCURRENT CONTEXT: Round " ++ toString round_num ++ " of " ++ toString max_rounds
          ++ " maximum tool calling rounds." ++ " This is your final round - provide complete answer."
      else
        "\n\nCURRENT CONTEXT: Round " ++ toString round_num ++ " of " ++ toString max_rounds
          ++ " maximum tool calling rounds.")
  else system_content

/-- Builds the api_params of one round: round-annotated system content,
a snapshot of the messages, and the tools plus tool_choice "auto" when
the tools argument is truthy (present and non-empty). -/
def buildApiParams (system_content : String) (messages : List Message)
    (tools : Option (List ToolSchema)) (round_num max_rounds : Nat) : ApiParams :=
  let base : ApiParams :=
    { system := _add_round_context system_content round_num max_rounds,
      messages := messages, tools := none, tool_choice := none }
  match tools with
  | some ts => if ts = [] then base else { base with tools := some ts, tool_choice := some "auto" }
  | none => base

/-- Method _create_error_response: the mock terminal response built for
service failures, with stop_reason "end_turn" and one text block. -/
def _create_error_response (error_message : String) : Response :=
  { stop_reason := "end_turn", content := [ContentBlock.text error_message] }

/-- One round of _execute_single_round, additionally recording (first
component) the exception raised by the service, if any.  The second
component is the response the method returns: the service response on
success, the mock error response when the service raised. -/
def runSingleRound (service : Service) (messages : List Message) (system_content : String)
    (tools : Option (List ToolSchema)) (round_num max_rounds : Nat) :
    Option String × Response :=
  match service (buildApiParams system_content messages tools round_num max_rounds) with
  | Except.ok response => (none, response)
  | Except.error e => (some e, _create_error_response ("API call failed: " ++ e))

/-- Method _execute_single_round: the response used by the caller. -/
def _execute_single_round (service : Service) (messages : List Message) (system_content : String)
    (tools : Option (List ToolSchema)) (round_num max_rounds : Nat) : Response :=
  (runSingleRound service messages system_content tools round_num max_rounds).2

/-- The tool_result built for one tool_use block: the capability result
on success, the descriptive failure string when the capability raised. -/
def toolResultFor (tool_manager : ToolManager) (id name : String) (input : ToolInput) : ToolResult :=
  match tool_manager.execute_tool name input with
  | Except.ok tool_result => { tool_use_id := id, content := tool_result }
  | Except.error e => { tool_use_id := id, content := "Tool execution failed: " ++ e }

/-- The loop body of _execute_tools_with_error_handling over the
content blocks: text blocks are skipped, each tool_use block yields one
tool_result. -/
def executeToolsList (tool_manager : ToolManager) : List ContentBlock → List ToolResult
  | [] => []
  | ContentBlock.text _ :: rest => executeToolsList tool_manager rest
  | ContentBlock.tool_use id name input :: rest =>
      toolResultFor tool_manager id name input :: executeToolsList tool_manager rest

/-- Method _execute_tools_with_error_handling. -/
def _execute_tools_with_error_handling (response : Response) (tool_manager : ToolManager) :
    List ToolResult :=
  executeToolsList tool_manager response.content

/-- The shared tail of _prepare_next_round once the tool results are
known: copy the messages, append the assistant turn with the raw
response content, then append the user-role tool-result turn when the
result list is truthy (non-empty). -/
def prepareWithResults (messages : List Message) (response : Response)
    (tool_results : List ToolResult) : List Message :=
  let next_messages := messages ++
    [{ role := "assistant", content := MessageContent.blocks response.content }]
  if tool_results = [] then next_messages
  else next_messages ++ [{ role := "user", content := MessageContent.results tool_results }]

/-- Method _prepare_next_round. -/
def _prepare_next_round (messages : List Message) (response : Response)
    (tool_manager : ToolManager) : List Message :=
  prepareWithResults messages response (_execute_tools_with_error_handling response tool_manager)

/-- The text blocks gathered by _extract_final_response: blocks with a
text attribute whose text is truthy and strips to a truthy string,
each appended in stripped form. -/
def extractTextBlocks : List ContentBlock → List String
  | [] => []
  | ContentBlock.text t :: rest =>
      if t ≠ "" ∧ pyStrip t ≠ "" then pyStrip t :: extractTextBlocks rest
      else extractTextBlocks rest
  | ContentBlock.tool_use _ _ _ :: rest => extractTextBlocks rest

/-- Method _extract_final_response. -/
def _extract_final_response (response : Response) : String :=
  if response.content = [] then FALLBACK_MESSAGE
  else
    let text_blocks := extractTextBlocks response.content
    if text_blocks = [] then FALLBACK_MESSAGE
    else joinSpace text_blocks

/-- Ghost record of one loop iteration of generate_response: the
exception raised by the service call (if any), the response object
used afterwards, the message list passed to the service, and the tool
results gathered in this round (none when this round executed no
tools). -/
structure RoundRecord where
  raised : Option String
  response : Response
  messages : List Message
  tool_results : Option (List ToolResult)
deriving DecidableEq

/-- The instrumented result of generate_response: the returned answer
string plus the ghost trace (one RoundRecord per service invocation,
and the message list held when the method returned). -/
structure ExchangeResult where
  answer : String
  rounds : List RoundRecord
  final_messages : List Message
deriving DecidableEq

/-- The for-loop of generate_response.  The first explicit argument is
the number of loop iterations still available (max_rounds + 1 -
round_num on every reachable call); the accumulator carries the ghost
records of the iterations already run.  The fuel-zero case is the
fall-through return after the final loop iteration (line 104 of the
source), reachable only when max_rounds is zero, in which case the
response variable is still None and _extract_final_response returns
the fallback message. -/
def generateLoop (service : Service) (system_content : String)
    (tools : Option (List ToolSchema)) (tool_manager : Option ToolManager)
    (max_rounds : Nat) :
    Nat → List Message → Nat → List RoundRecord → ExchangeResult
  | 0, messages, _round_num, acc =>
      { answer :=
          match acc.getLast? with
          | some rec => _extract_final_response rec.response
          | none => FALLBACK_MESSAGE,
        rounds := acc,
        final_messages := messages }
  | fuel + 1, messages, round_num, acc =>
      let step := runSingleRound service messages system_content tools round_num max_rounds
      let response := step.2
      if response.stop_reason = "tool_use" then
        match tool_manager with
        | some mgr =>
            if round_num < max_rounds then
              let tool_results := _execute_tools_with_error_handling response mgr
              let next_messages := prepareWithResults messages response tool_results
              generateLoop service system_content tools tool_manager max_rounds
                fuel next_messages (round_num + 1)
                (acc ++ [{ raised := step.1, response := response,
                           messages := messages, tool_results := some tool_results }])
            else
              let tool_results := _execute_tools_with_error_handling response mgr
              { answer := _extract_final_response response,
                rounds := acc ++ [{ raised := step.1, response := response,
                                    messages := messages, tool_results := some tool_results }],
                final_messages := messages }
        | none =>
            { answer := NO_TOOL_MANAGER_MESSAGE,
              rounds := acc ++ [{ raised := step.1, response := response,
                                  messages := messages, tool_results := none }],
              final_messages := messages }
      else
        { answer := _extract_final_response response,
          rounds := acc ++ [{ raised := step.1, response := response,
                              messages := messages, tool_results := none }],
          final_messages := messages }

/-- Method generate_response (instrumented): starts from the single
user message, builds the system content, and runs up to max_rounds
loop iterations starting at round 1. -/
def generate_response (service : Service) (query : String)
    (conversation_history : Option String) (tools : Option (List ToolSchema))
    (tool_manager : Option ToolManager) (max_rounds : Nat) : ExchangeResult :=
  generateLoop service (_build_system_content conversation_history max_rounds) tools
    tool_manager max_rounds max_rounds
    [{ role := "user", content := MessageContent.text query }] 1 []

/-- Exception-propagating rendering of _execute_single_round in the
Except monad: the service call may raise, and the except-clause of the
source turns the failure into the mock error response. -/
def _execute_single_roundE (service : Service) (messages : List Message)
    (system_content : String) (tools : Option (List ToolSchema))
    (round_num max_rounds : Nat) : Except String Response :=
  match service (buildApiParams system_content messages tools round_num max_rounds) with
  | Except.ok response => Except.ok response
  | Except.error e => Except.ok (_create_error_response ("API call failed: " ++ e))

/-- Exception-propagating rendering of the loop body of
_execute_tools_with_error_handling: each capability call may raise,
and the per-block except-clause substitutes the descriptive failure
string. -/
def executeToolsListE (tool_manager : ToolManager) :
    List ContentBlock → Except String (List ToolResult)
  | [] => Except.ok []
  | ContentBlock.text _ :: rest => executeToolsListE tool_manager rest
  | ContentBlock.tool_use id name input :: rest => do
      let tool_result ←
        (match tool_manager.execute_tool name input with
         | Except.ok s => Except.ok ({ tool_use_id := id, content := s } : ToolResult)
         | Except.error e =>
             Except.ok ({ tool_use_id := id, content := "Tool execution failed: " ++ e } : ToolResult))
      let rest_results ← executeToolsListE tool_manager rest
      Except.ok (tool_result :: rest_results)

/-- Exception-propagating rendering of the loop of generate_response,
returning just the answer string (the return type of the Python
method).  Any failure escaping a catch site of a callee would
propagate through the monadic binds to the caller. -/
def generateLoopE (service : Service) (system_content : String)
    (tools : Option (List ToolSchema)) (tool_manager : Option ToolManager)
    (max_rounds : Nat) :
    Nat → List Message → Nat → Option Response → Except String String
  | 0, _messages, _round_num, last =>
      Except.ok
        (match last with
         | some response => _extract_final_response response
         | none => FALLBACK_MESSAGE)
  | fuel + 1, messages, round_num, _last => do
      let response ← _execute_single_roundE service messages system_content tools
        round_num max_rounds
      if response.stop_reason = "tool_use" then
        match tool_manager with
        | some mgr =>
            if round_num < max_rounds then do
              let tool_results ← executeToolsListE mgr response.content
              generateLoopE service system_content tools tool_manager max_rounds
                fuel (prepareWithResults messages response tool_results) (round_num + 1)
                (some response)
            else do
              let _tool_results ← executeToolsListE mgr response.content
              Except.ok (_extract_final_response response)
        | none => Except.ok NO_TOOL_MANAGER_MESSAGE
      else
        Except.ok (_extract_final_response response)

/-- Exception-propagating rendering of generate_response, with the
return type of the Python method (a plain string on success). -/
def generate_responseE (service : Service) (query : String)
    (conversation_history : Option String) (tools : Option (List ToolSchema))
    (tool_manager : Option ToolManager) (max_rounds : Nat) : Except String String :=
  generateLoopE service (_build_system_content conversation_history max_rounds) tools
    tool_manager max_rounds max_rounds
    [{ role := "user", content := MessageContent.text query }] 1 none

/-- The tool requests (id, name, input) carried by a list of content
blocks, in listed order. -/
def toolUseRequests : List ContentBlock → List (String × String × ToolInput)
  | [] => []
  | ContentBlock.text _ :: rest => toolUseRequests rest
  | ContentBlock.tool_use id name input :: rest => (id, name, input) :: toolUseRequests rest

/-- The text carried by every text-typed content block, verbatim and in
block order. -/
def allTextBlocks : List ContentBlock → List String
  | [] => []
  | ContentBlock.text t :: rest => t :: allTextBlocks rest
  | ContentBlock.tool_use _ _ _ :: rest => allTextBlocks rest

/-- Rendering of the extraction rule as the specification words it,
for comparison with _extract_final_response: all text blocks of the
terminal response joined with single spaces in block order, the fixed
fallback string when there are none. -/
def specExtractFinalResponse (response : Response) : String :=
  if allTextBlocks response.content = [] then FALLBACK_MESSAGE
  else joinSpace (allTextBlocks response.content)

/-- A heap of Python list objects holding message lists, for the frame
property of _prepare_next_round: references are allocation indices. -/
structure PyHeap where
  lists : List (List Message)
deriving DecidableEq

/-- Dereference a list object (out-of-range reads return the empty
list; the theorems only use valid references). -/
def heapGet (h : PyHeap) (r : Nat) : List Message :=
  h.lists.getD r []

/-- Allocate a fresh list object, returning the new heap and the fresh
reference. -/
def heapAlloc (h : PyHeap) (v : List Message) : PyHeap × Nat :=
  ({ lists := h.lists ++ [v] }, h.lists.length)

/-- In-place update of the list object behind a reference. -/
def heapSet (h : PyHeap) (r : Nat) (v : List Message) : PyHeap :=
  { lists := h.lists.set r v }

/-- Method _prepare_next_round with Python reference semantics made
explicit: messages.copy() allocates a fresh list object, and the two
append calls mutate only that fresh object. -/
def prepareNextRoundRef (h : PyHeap) (messages : Nat) (response : Response)
    (tool_manager : ToolManager) : PyHeap × Nat :=
  let copied := heapAlloc h (heapGet h messages)
  let h1 := copied.1
  let next_messages := copied.2
  let h2 := heapSet h1 next_messages (heapGet h1 next_messages ++
    [{ role := "assistant", content := MessageContent.blocks response.content }])
  let tool_results := _execute_tools_with_error_handling response tool_manager
  let h3 :=
    if tool_results = [] then h2
    else heapSet h2 next_messages (heapGet h2 next_messages ++
      [{ role := "user", content := MessageContent.results tool_results }])
  (h3, next_messages)

/-- A string with a non-empty left part stays non-empty under append. -/
lemma append_ne_empty_left (s t : String) (hs : s ≠ "") : s ++ t ≠ "" := by
  intro h
  apply hs
  have hd : s.data ++ t.data = ([] : List Char) := congrArg String.data h
  have h3 : s.data = [] := (List.append_eq_nil.mp hd).1
  cases s with
  | mk d => exact congrArg String.mk h3

/-- joinSpace of a non-empty list of non-empty strings is non-empty. -/
lemma joinSpace_ne_empty :
    ∀ l : List String, l ≠ [] → (∀ s ∈ l, s ≠ "") → joinSpace l ≠ "" := by
  intro l hne hmem
  match l with
  | [] => exact absurd rfl hne
  | [s] => exact hmem s (by simp)
  | s :: s2 :: rest =>
      have hs : s ≠ "" := hmem s (by simp)
      have h1 : s ++ " " ≠ "" := append_ne_empty_left s " " hs
      exact append_ne_empty_left (s ++ " ") (joinSpace (s2 :: rest)) h1

/-- Every string gathered by extractTextBlocks is non-empty. -/
lemma extractTextBlocks_ne_empty :
    ∀ bs : List ContentBlock, ∀ s ∈ extractTextBlocks bs, s ≠ "" := by
  intro bs
  induction bs with
  | nil => intro s hs; simp [extractTextBlocks] at hs
  | cons b rest ih =>
      intro s hs
      cases b with
      | text t =>
          by_cases hc : t ≠ "" ∧ pyStrip t ≠ ""
          · rw [extractTextBlocks, if_pos hc] at hs
            rcases List.mem_cons.mp hs with h | h
            · exact h ▸ hc.2
            · exact ih s h
          · rw [extractTextBlocks, if_neg hc] at hs
            exact ih s hs
      | tool_use id name input =>
          rw [extractTextBlocks] at hs
          exact ih s hs

/-- The fallback message is not the empty string. -/
lemma fallback_ne_empty : FALLBACK_MESSAGE ≠ "" := by decide

/-- The method _extract_final_response never returns the empty string. -/
lemma extract_ne_empty (response : Response) : _extract_final_response response ≠ "" := by
  unfold _extract_final_response
  split
  · exact fallback_ne_empty
  · show (if extractTextBlocks response.content = [] then FALLBACK_MESSAGE
      else joinSpace (extractTextBlocks response.content)) ≠ ""
    split
    · exact fallback_ne_empty
    · next hne =>
        exact joinSpace_ne_empty _ hne (extractTextBlocks_ne_empty response.content)

/-- When no text block survives extraction, _extract_final_response
returns the fallback message. -/
lemma extract_eq_fallback_of_no_text (response : Response)
    (h : extractTextBlocks response.content = []) :
    _extract_final_response response = FALLBACK_MESSAGE := by
  unfold _extract_final_response
  split
  · rfl
  · show (if extractTextBlocks response.content = [] then FALLBACK_MESSAGE
      else joinSpace (extractTextBlocks response.content)) = FALLBACK_MESSAGE
    rw [if_pos h]

/-- Stripping the empty string gives the empty string. -/
lemma pyStrip_empty : pyStrip "" = "" := rfl

/-- extractTextBlocks equals the stripped non-blank text blocks, in
block order. -/
lemma extractTextBlocks_eq_filterMap :
    ∀ bs : List ContentBlock,
      extractTextBlocks bs =
        (allTextBlocks bs).filterMap
          (fun t => if pyStrip t = "" then none else some (pyStrip t)) := by
  intro bs
  induction bs with
  | nil => rfl
  | cons b rest ih =>
      cases b with
      | text t =>
          by_cases h : pyStrip t = ""
          · have hc : ¬(t ≠ "" ∧ pyStrip t ≠ "") := by
              intro hc; exact hc.2 h
            rw [extractTextBlocks, if_neg hc, allTextBlocks]
            rw [List.filterMap_cons, if_pos h]
            exact ih
          · have ht : t ≠ "" := by
              intro he; apply h; rw [he]; exact pyStrip_empty
            rw [extractTextBlocks, if_pos ⟨ht, h⟩, allTextBlocks]
            rw [List.filterMap_cons, if_neg h]
            rw [ih]
      | tool_use id name input =>
          rw [extractTextBlocks, allTextBlocks]
          exact ih

/-- The tool-execution loop yields exactly the listed tool requests
mapped to their results, in order. -/
lemma executeToolsList_eq_map (tool_manager : ToolManager) :
    ∀ bs : List ContentBlock,
      executeToolsList tool_manager bs =
        (toolUseRequests bs).map
          (fun req => toolResultFor tool_manager req.1 req.2.1 req.2.2) := by
  intro bs
  induction bs with
  | nil => rfl
  | cons b rest ih =>
      cases b with
      | text t => rw [executeToolsList, toolUseRequests]; exact ih
      | tool_use id name input =>
          rw [executeToolsList, toolUseRequests, List.map_cons, ih]

/-- The monadic rendering of _execute_single_round never propagates a
failure: it returns exactly the response of runSingleRound. -/
lemma singleRoundE_eq (service : Service) (messages : List Message) (system_content : String)
    (tools : Option (List ToolSchema)) (round_num max_rounds : Nat) :
    _execute_single_roundE service messages system_content tools round_num max_rounds =
      Except.ok (runSingleRound service messages system_content tools round_num max_rounds).2 := by
  unfold _execute_single_roundE runSingleRound
  cases service (buildApiParams system_content messages tools round_num max_rounds) <;> rfl

/-- Binding a success value in the Except monad applies the
continuation. -/
lemma exceptOkBind {α β : Type} (a : α) (f : α → Except String β) :
    (Except.ok a >>= f) = f a := rfl

/-- The monadic rendering of the tool-execution loop never propagates
a failure: it returns exactly the pure result list. -/
lemma executeToolsListE_eq (tool_manager : ToolManager) :
    ∀ bs : List ContentBlock,
      executeToolsListE tool_manager bs = Except.ok (executeToolsList tool_manager bs) := by
  intro bs
  induction bs with
  | nil => rfl
  | cons b rest ih =>
      cases b with
      | text t => rw [executeToolsListE, executeToolsList]; exact ih
      | tool_use id name input =>
          rw [executeToolsListE, executeToolsList]
          cases h : tool_manager.execute_tool name input with
          | ok s => simp [h, ih, toolResultFor, exceptOkBind]
          | error e => simp [h, ih, toolResultFor, exceptOkBind]

/-- The loop only appends to the ghost record accumulator: every
record already accumulated is found unchanged in the result. -/
lemma generateLoop_getElem_lt (service : Service) (sys : String)
    (tools : Option (List ToolSchema)) (mgr : Option ToolManager) (mr : Nat) :
    ∀ fuel msgs rn acc i, i < acc.length →
      (generateLoop service sys tools mgr mr fuel msgs rn acc).rounds[i]? = acc[i]? := by
  intro fuel
  induction fuel with
  | zero => intro msgs rn acc i hi; simp [generateLoop]
  | succ n ih =>
      intro msgs rn acc i hi
      by_cases hstop :
        (runSingleRound service msgs sys tools rn mr).2.stop_reason = "tool_use"
      · cases mgr with
        | some m =>
            by_cases hlt : rn < mr
            · simp only [generateLoop, hstop, if_true, if_pos hlt]
              rw [ih _ _ _ i (by simp only [List.length_append, List.length_cons,
                List.length_nil]; omega)]
              exact List.getElem?_append_left hi
            · simp only [generateLoop, hstop, if_true, if_neg hlt]
              exact List.getElem?_append_left hi
        | none =>
            simp only [generateLoop, hstop, if_true]
            exact List.getElem?_append_left hi
      · simp only [generateLoop, hstop, if_false]
        exact List.getElem?_append_left hi

/-- The loop runs at most fuel further iterations, so at most fuel
further service calls are recorded. -/
lemma generateLoop_length_le (service : Service) (sys : String)
    (tools : Option (List ToolSchema)) (mgr : Option ToolManager) (mr : Nat) :
    ∀ fuel msgs rn acc,
      (generateLoop service sys tools mgr mr fuel msgs rn acc).rounds.length ≤
        acc.length + fuel := by
  intro fuel
  induction fuel with
  | zero => intro msgs rn acc; simp [generateLoop]
  | succ n ih =>
      intro msgs rn acc
      by_cases hstop :
        (runSingleRound service msgs sys tools rn mr).2.stop_reason = "tool_use"
      · cases mgr with
        | some m =>
            by_cases hlt : rn < mr
            · simp only [generateLoop, hstop, if_true, if_pos hlt]
              refine le_trans (ih _ _ _) ?_
              simp only [List.length_append, List.length_cons, List.length_nil]
              omega
            · simp [generateLoop, hstop, hlt]
        | none =>
            simp [generateLoop, hstop]
      · simp [generateLoop, hstop]

/-- Looking up a snoc list at an index past the prefix identifies the
appended element. -/
lemma getElem_append_singleton {α : Type} (l : List α) (a b : α) (i : Nat)
    (h : (l ++ [a])[i]? = some b) (hle : l.length ≤ i) : i = l.length ∧ b = a := by
  have hi : i < (l ++ [a]).length := (List.getElem?_eq_some.mp h).1
  rw [List.length_append, List.length_cons, List.length_nil] at hi
  have hieq : i = l.length := by omega
  subst hieq
  rw [List.getElem?_concat_length] at h
  exact ⟨rfl, (Option.some.inj h).symm⟩

/-- A recorded round whose response does not request tool use is the
terminal round: it is the last record, no tools were executed in it,
and the answer and the final message list come from it. -/
lemma generateLoop_terminal_end (service : Service) (sys : String)
    (tools : Option (List ToolSchema)) (mgr : Option ToolManager) (mr : Nat) :
    ∀ fuel msgs rn acc i rec,
      (generateLoop service sys tools mgr mr fuel msgs rn acc).rounds[i]? = some rec →
      acc.length ≤ i →
      rec.response.stop_reason ≠ "tool_use" →
      (generateLoop service sys tools mgr mr fuel msgs rn acc).rounds.length = i + 1 ∧
      rec.tool_results = none ∧
      (generateLoop service sys tools mgr mr fuel msgs rn acc).answer =
        _extract_final_response rec.response ∧
      (generateLoop service sys tools mgr mr fuel msgs rn acc).final_messages = rec.messages := by
  intro fuel
  induction fuel with
  | zero =>
      intro msgs rn acc i rec hget hle _hstop
      have hz : (generateLoop service sys tools mgr mr 0 msgs rn acc).rounds = acc := rfl
      rw [hz, List.getElem?_eq_none hle] at hget
      exact absurd hget (by simp)
  | succ n ih =>
      intro msgs rn acc i rec hget hle hstop
      by_cases hstop2 :
        (runSingleRound service msgs sys tools rn mr).2.stop_reason = "tool_use"
      · cases mgr with
        | some m =>
            by_cases hlt : rn < mr
            · simp only [generateLoop, hstop2, if_true, if_pos hlt] at hget ⊢
              by_cases hi2 : acc.length + 1 ≤ i
              · exact ih _ _ _ _ _ hget
                  (by simp only [List.length_append, List.length_cons, List.length_nil]; omega)
                  hstop
              · rw [generateLoop_getElem_lt service sys tools (some m) mr n] at hget
                · obtain ⟨_, hrec⟩ := getElem_append_singleton _ _ _ _ hget hle
                  subst hrec
                  exact absurd hstop2 hstop
                · simp only [List.length_append, List.length_cons, List.length_nil]
                  omega
            · simp only [generateLoop, hstop2, if_true, if_neg hlt] at hget ⊢
              obtain ⟨_, hrec⟩ := getElem_append_singleton _ _ _ _ hget hle
              subst hrec
              exact absurd hstop2 hstop
        | none =>
            simp only [generateLoop, hstop2, if_true] at hget ⊢
            obtain ⟨_, hrec⟩ := getElem_append_singleton _ _ _ _ hget hle
            subst hrec
            exact absurd hstop2 hstop
      · simp only [generateLoop, hstop2, if_false] at hget ⊢
        obtain ⟨hieq, hrec⟩ := getElem_append_singleton _ _ _ _ hget hle
        subst hrec
        refine ⟨?_, rfl, rfl, rfl⟩
        simp only [List.length_append, List.length_cons, List.length_nil]
        omega

/-- When a tool manager is configured and the last recorded response
requests tool use, the run ended in the final round: the requested
tools were executed for that very response, the answer was extracted
from that same response, and all fuel was consumed (one service call
per available round). -/
lemma generateLoop_toolUse_final (service : Service) (sys : String)
    (tools : Option (List ToolSchema)) (m : ToolManager) (mr : Nat) :
    ∀ fuel msgs rn acc rec,
      fuel + rn = mr + 1 → 1 ≤ fuel →
      (generateLoop service sys tools (some m) mr fuel msgs rn acc).rounds.getLast? =
        some rec →
      rec.response.stop_reason = "tool_use" →
      rec.tool_results = some (executeToolsList m rec.response.content) ∧
      (generateLoop service sys tools (some m) mr fuel msgs rn acc).answer =
        _extract_final_response rec.response ∧
      (generateLoop service sys tools (some m) mr fuel msgs rn acc).rounds.length =
        acc.length + fuel := by
  intro fuel
  induction fuel with
  | zero =>
      intro msgs rn acc rec _hinv hf
      exact absurd hf (by omega)
  | succ n ih =>
      intro msgs rn acc rec hinv _hf hlast hstop
      by_cases hstop2 :
        (runSingleRound service msgs sys tools rn mr).2.stop_reason = "tool_use"
      · by_cases hlt : rn < mr
        · simp only [generateLoop, hstop2, if_true, if_pos hlt] at hlast ⊢
          have hn : 1 ≤ n := by omega
          obtain ⟨h1, h2, h3⟩ := ih _ _ _ _ (by omega) hn hlast hstop
          refine ⟨h1, h2, ?_⟩
          rw [h3]
          simp only [List.length_append, List.length_cons, List.length_nil]
          omega
        · simp only [generateLoop, hstop2, if_true, if_neg hlt] at hlast ⊢
          rw [List.getLast?_concat] at hlast
          injection hlast with hrec
          subst hrec
          refine ⟨rfl, rfl, ?_⟩
          simp only [List.length_append, List.length_cons, List.length_nil]
          omega
      · simp only [generateLoop, hstop2, if_false] at hlast ⊢
        rw [List.getLast?_concat] at hlast
        injection hlast with hrec
        subst hrec
        exact absurd hstop hstop2

/-- When the service call of a round raised, the response recorded for
that round is the synthesized mock error response. -/
lemma runSingleRound_raised (service : Service) (messages : List Message)
    (system_content : String) (tools : Option (List ToolSchema))
    (round_num max_rounds : Nat) (e : String)
    (h : (runSingleRound service messages system_content tools round_num max_rounds).1 =
      some e) :
    (runSingleRound service messages system_content tools round_num max_rounds).2 =
      _create_error_response ("API call failed: " ++ e) := by
  unfold runSingleRound at h ⊢
  cases hs : service (buildApiParams system_content messages tools round_num max_rounds) with
  | ok r => rw [hs] at h; simp at h
  | error e2 =>
      rw [hs] at h
      simp only at h
      injection h with h2
      subst h2
      rfl

/-- Every record produced by the loop links a raised service failure
to the synthesized error response. -/
lemma generateLoop_raised (service : Service) (sys : String)
    (tools : Option (List ToolSchema)) (mgr : Option ToolManager) (mr : Nat) :
    ∀ fuel msgs rn acc,
      (∀ rec ∈ acc, ∀ e, rec.raised = some e →
        rec.response = _create_error_response ("API call failed: " ++ e)) →
      ∀ rec ∈ (generateLoop service sys tools mgr mr fuel msgs rn acc).rounds,
        ∀ e, rec.raised = some e →
          rec.response = _create_error_response ("API call failed: " ++ e) := by
  intro fuel
  induction fuel with
  | zero =>
      intro msgs rn acc hacc rec hrec
      exact hacc rec hrec
  | succ n ih =>
      intro msgs rn acc hacc rec hrec
      have hsnoc : ∀ rec2 ∈ acc ++
          [{ raised := (runSingleRound service msgs sys tools rn mr).1,
             response := (runSingleRound service msgs sys tools rn mr).2,
             messages := msgs,
             tool_results := (none : Option (List ToolResult)) }],
          ∀ e, rec2.raised = some e →
            rec2.response = _create_error_response ("API call failed: " ++ e) := by
        intro rec2 h2
        rcases List.mem_append.mp h2 with hmem | hmem
        · exact hacc rec2 hmem
        · rw [List.mem_singleton] at hmem
          subst hmem
          intro e he
          exact runSingleRound_raised service msgs sys tools rn mr e he
      have hsnoc2 : ∀ tr : Option (List ToolResult), ∀ rec2 ∈ acc ++
          [{ raised := (runSingleRound service msgs sys tools rn mr).1,
             response := (runSingleRound service msgs sys tools rn mr).2,
             messages := msgs,
             tool_results := tr }],
          ∀ e, rec2.raised = some e →
            rec2.response = _create_error_response ("API call failed: " ++ e) := by
        intro tr rec2 h2
        rcases List.mem_append.mp h2 with hmem | hmem
        · exact hacc rec2 hmem
        · rw [List.mem_singleton] at hmem
          subst hmem
          intro e he
          exact runSingleRound_raised service msgs sys tools rn mr e he
      by_cases hstop2 :
        (runSingleRound service msgs sys tools rn mr).2.stop_reason = "tool_use"
      · cases mgr with
        | some m =>
            by_cases hlt : rn < mr
            · simp only [generateLoop, hstop2, if_true, if_pos hlt] at hrec
              exact ih _ _ _ (hsnoc2 _) rec hrec
            · simp only [generateLoop, hstop2, if_true, if_neg hlt] at hrec
              exact hsnoc2 _ rec hrec
        | none =>
            simp only [generateLoop, hstop2, if_true] at hrec
            exact hsnoc rec hrec
      · simp only [generateLoop, hstop2, if_false] at hrec
        exact hsnoc rec hrec

/-- The message with no tool manager is not the empty string. -/
lemma no_tool_manager_ne_empty : NO_TOOL_MANAGER_MESSAGE ≠ "" := by decide

/-- Whatever the service and tool behaviors, the loop produces a
non-empty answer string. -/
lemma generateLoop_answer_ne_empty (service : Service) (sys : String)
    (tools : Option (List ToolSchema)) (mgr : Option ToolManager) (mr : Nat) :
    ∀ fuel msgs rn acc,
      (generateLoop service sys tools mgr mr fuel msgs rn acc).answer ≠ "" := by
  intro fuel
  induction fuel with
  | zero =>
      intro msgs rn acc
      show (match acc.getLast? with
        | some rec => _extract_final_response rec.response
        | none => FALLBACK_MESSAGE) ≠ ""
      cases acc.getLast? with
      | some rec => exact extract_ne_empty _
      | none => exact fallback_ne_empty
  | succ n ih =>
      intro msgs rn acc
      by_cases hstop2 :
        (runSingleRound service msgs sys tools rn mr).2.stop_reason = "tool_use"
      · cases mgr with
        | some m =>
            by_cases hlt : rn < mr
            · simp only [generateLoop, hstop2, if_true, if_pos hlt]
              exact ih _ _ _
            · simp only [generateLoop, hstop2, if_true, if_neg hlt]
              exact extract_ne_empty _
        | none =>
            simp only [generateLoop, hstop2, if_true]
            exact no_tool_manager_ne_empty
      · simp only [generateLoop, hstop2, if_false]
        exact extract_ne_empty _

/-- The monadic rendering of the loop always succeeds, with exactly the
answer of the instrumented loop. -/
lemma generateLoopE_eq (service : Service) (sys : String)
    (tools : Option (List ToolSchema)) (mgr : Option ToolManager) (mr : Nat) :
    ∀ fuel msgs rn acc,
      generateLoopE service sys tools mgr mr fuel msgs rn
          (acc.getLast?.map RoundRecord.response) =
        Except.ok (generateLoop service sys tools mgr mr fuel msgs rn acc).answer := by
  intro fuel
  induction fuel with
  | zero =>
      intro msgs rn acc
      have hz : (generateLoop service sys tools mgr mr 0 msgs rn acc).answer =
          (match acc.getLast? with
           | some rec => _extract_final_response rec.response
           | none => FALLBACK_MESSAGE) := rfl
      simp only [generateLoopE]
      rw [hz]
      cases acc.getLast? <;> rfl
  | succ n ih =>
      intro msgs rn acc
      simp only [generateLoopE, generateLoop, singleRoundE_eq, exceptOkBind]
      by_cases hstop2 :
        (runSingleRound service msgs sys tools rn mr).2.stop_reason = "tool_use"
      · cases mgr with
        | some m =>
            by_cases hlt : rn < mr
            · simp only [hstop2, if_true, if_pos hlt, executeToolsListE_eq, exceptOkBind]
              have h := ih
                (prepareWithResults msgs (runSingleRound service msgs sys tools rn mr).2
                  (_execute_tools_with_error_handling
                    (runSingleRound service msgs sys tools rn mr).2 m))
                (rn + 1)
                (acc ++ [{ raised := (runSingleRound service msgs sys tools rn mr).1,
                           response := (runSingleRound service msgs sys tools rn mr).2,
                           messages := msgs,
                           tool_results := some (_execute_tools_with_error_handling
                             (runSingleRound service msgs sys tools rn mr).2 m) }])
              rw [List.getLast?_concat] at h
              exact h
            · simp only [hstop2, if_true, if_neg hlt, executeToolsListE_eq, exceptOkBind]
        | none => simp only [hstop2, if_true]
      · simp only [hstop2, if_false]

/-- Reading an appended list at an index inside the prefix sees the
prefix. -/
lemma listGetD_append_left {α : Type} :
    ∀ (l l2 : List α) (i : Nat) (d : α), i < l.length →
      (l ++ l2).getD i d = l.getD i d := by
  intro l
  induction l with
  | nil => intro l2 i d h; simp at h
  | cons a rest ih =>
      intro l2 i d h
      cases i with
      | zero => rfl
      | succ j =>
          simp only [List.cons_append, List.getD_cons_succ]
          exact ih l2 j d (by simpa using h)

/-- Reading an appended singleton at the prefix length sees the new
element. -/
lemma listGetD_append_length {α : Type} :
    ∀ (l : List α) (v d : α), (l ++ [v]).getD l.length d = v := by
  intro l
  induction l with
  | nil => intro v d; rfl
  | cons a rest ih =>
      intro v d
      simp only [List.cons_append, List.length_cons, List.getD_cons_succ]
      exact ih v d

/-- Setting an appended singleton at the prefix length replaces the new
element. -/
lemma listSet_append_length {α : Type} :
    ∀ (l : List α) (v w : α), (l ++ [v]).set l.length w = l ++ [w] := by
  intro l
  induction l with
  | nil => intro v w; rfl
  | cons a rest ih =>
      intro v w
      simp only [List.cons_append, List.length_cons, List.set_cons_succ]
      rw [ih]

/-- The reference version of _prepare_next_round builds the heap with
one fresh object holding exactly the pure result, and hands back the
fresh reference. -/
lemma prepareNextRoundRef_eq (h : PyHeap) (messages : Nat) (response : Response)
    (tool_manager : ToolManager) :
    prepareNextRoundRef h messages response tool_manager =
      ({ lists := h.lists ++
          [_prepare_next_round (heapGet h messages) response tool_manager] },
       h.lists.length) := by
  by_cases hres : _execute_tools_with_error_handling response tool_manager = []
  · simp only [prepareNextRoundRef, heapAlloc, heapGet, heapSet, hres, if_pos,
      listGetD_append_length, listSet_append_length,
      _prepare_next_round, prepareWithResults, if_true]
  · simp only [prepareNextRoundRef, heapAlloc, heapGet, heapSet, if_neg hres,
      listGetD_append_length, listSet_append_length,
      _prepare_next_round, prepareWithResults]

/-! Concrete behaviors used to instantiate the theorems below. -/

/-- A response that always requests one tool invocation. -/
def toolUseResponse : Response :=
  { stop_reason := "tool_use",
    content := [ContentBlock.tool_use "id1" "search_course_content" [("query", "X")]] }

/-- A plain text response that requests no tool. -/
def endResponse : Response :=
  { stop_reason := "end_turn", content := [ContentBlock.text "Answer about X"] }

/-- A service that always requests tool use. -/
def svcAllToolUse : Service := fun _ => Except.ok toolUseResponse

/-- A service that always answers with text. -/
def svcAllEnd : Service := fun _ => Except.ok endResponse

/-- A service that always raises (total service failure). -/
def svcAllFail : Service := fun _ => Except.error "network down"

/-- A tool manager whose capability always succeeds. -/
def mgrOk : ToolManager := { execute_tool := fun _ _ => Except.ok "chunk A" }

/-- A tool manager whose capability always throws. -/
def mgrThrow : ToolManager := { execute_tool := fun _ _ => Except.error "boom" }

/-- The initial user message for the query "q". -/
def userMsg : Message := { role := "user", content := MessageContent.text "q" }

/-- C1: for every input (query, optional history, tools, tool manager,
max_rounds at least 1) and every behavior of the service and of the
tool capabilities (including one that always throws),
generate_response returns a string and never lets an exception
propagate: the exception-propagating rendering always returns
Except.ok carrying exactly the returned answer, and the answer is
never the empty string (so in particular it is non-empty under total
service failure). -/
theorem c1_generate_response_no_raise_nonempty
    (service : Service) (query : String) (conversation_history : Option String)
    (tools : Option (List ToolSchema)) (tool_manager : Option ToolManager)
    (max_rounds : Nat) :
    generate_responseE service query conversation_history tools tool_manager max_rounds =
      Except.ok
        (generate_response service query conversation_history tools tool_manager
          max_rounds).answer ∧
    (1 ≤ max_rounds →
      (generate_response service query conversation_history tools tool_manager
        max_rounds).answer ≠ "") := by
  constructor
  · exact generateLoopE_eq service (_build_system_content conversation_history max_rounds)
      tools tool_manager max_rounds max_rounds
      [{ role := "user", content := MessageContent.text query }] 1 []
  · intro _
    exact generateLoop_answer_ne_empty service
      (_build_system_content conversation_history max_rounds) tools tool_manager
      max_rounds max_rounds [{ role := "user", content := MessageContent.text query }] 1 []

/-- Witness for C1 at a totally failing service and an always-throwing
capability. -/
theorem c1_witness :
    1 ≤ 2 ∧
    (generate_responseE svcAllFail "q" none none (some mgrThrow) 2 =
      Except.ok (generate_response svcAllFail "q" none none (some mgrThrow) 2).answer) ∧
    (generate_response svcAllFail "q" none none (some mgrThrow) 2).answer ≠ "" :=
  ⟨by decide,
   (c1_generate_response_no_raise_nonempty svcAllFail "q" none none (some mgrThrow) 2).1,
   (c1_generate_response_no_raise_nonempty svcAllFail "q" none none (some mgrThrow) 2).2
     (by decide)⟩

/-- C2: for all max_rounds at least 1, one invocation of
generate_response records at most max_rounds service calls, whatever
the service and the tools return in each round (one RoundRecord is
appended per service invocation). -/
theorem c2_service_calls_le_max_rounds
    (service : Service) (query : String) (conversation_history : Option String)
    (tools : Option (List ToolSchema)) (tool_manager : Option ToolManager)
    (max_rounds : Nat) (h : 1 ≤ max_rounds) :
    (generate_response service query conversation_history tools tool_manager
      max_rounds).rounds.length ≤ max_rounds := by
  have h2 := generateLoop_length_le service
    (_build_system_content conversation_history max_rounds) tools tool_manager
    max_rounds max_rounds [{ role := "user", content := MessageContent.text query }] 1 []
  simpa [generate_response] using h2

/-- Witness for C2 with max_rounds 2 and a service that always
requests tools. -/
theorem c2_witness :
    1 ≤ 2 ∧
    (generate_response svcAllToolUse "q" none none (some mgrOk) 2).rounds.length ≤ 2 :=
  ⟨by decide,
   c2_service_calls_le_max_rounds svcAllToolUse "q" none none (some mgrOk) 2 (by decide)⟩

/-- C3: when a tool manager is configured and the last recorded
response has stop_reason tool_use, the run ended in the final round:
every tool request of that response was executed exactly once (the
recorded results are exactly the listed requests mapped through the
executor), no further service call was made (exactly max_rounds calls
in total), the answer is derived only from the text blocks of that
same response, and it is the fixed fallback message when that
response carries no extractable text block. -/
theorem c3_final_round_tool_use_terminates
    (service : Service) (query : String) (conversation_history : Option String)
    (tools : Option (List ToolSchema)) (m : ToolManager) (max_rounds : Nat)
    (rec : RoundRecord)
    (h1 : 1 ≤ max_rounds)
    (hlast : (generate_response service query conversation_history tools (some m)
      max_rounds).rounds.getLast? = some rec)
    (hstop : rec.response.stop_reason = "tool_use") :
    rec.tool_results = some (executeToolsList m rec.response.content) ∧
    (generate_response service query conversation_history tools (some m)
      max_rounds).answer = _extract_final_response rec.response ∧
    (generate_response service query conversation_history tools (some m)
      max_rounds).rounds.length = max_rounds ∧
    (extractTextBlocks rec.response.content = [] →
      (generate_response service query conversation_history tools (some m)
        max_rounds).answer = FALLBACK_MESSAGE) := by
  unfold generate_response at hlast ⊢
  obtain ⟨ha, hb, hc⟩ := generateLoop_toolUse_final service
    (_build_system_content conversation_history max_rounds) tools m max_rounds
    max_rounds [{ role := "user", content := MessageContent.text query }] 1 [] rec
    (by omega) h1 hlast hstop
  refine ⟨ha, hb, ?_, ?_⟩
  · rw [hc]
    simp
  · intro hempty
    rw [hb]
    exact extract_eq_fallback_of_no_text rec.response hempty

/-- Witness for C3: both rounds request tool use, the final round
executes its tool once more and the fallback is returned since the
final response carries no text. -/
theorem c3_witness :
    ((generate_response svcAllToolUse "q" none none (some mgrOk) 2).rounds.getLast? =
      some { raised := none, response := toolUseResponse,
             messages := [userMsg,
               { role := "assistant",
                 content := MessageContent.blocks toolUseResponse.content },
               { role := "user",
                 content := MessageContent.results
                   [{ tool_use_id := "id1", content := "chunk A" }] }],
             tool_results := some [{ tool_use_id := "id1", content := "chunk A" }] }) ∧
    ({ raised := none, response := toolUseResponse,
       messages := [userMsg,
         { role := "assistant",
           content := MessageContent.blocks toolUseResponse.content },
         { role := "user",
           content := MessageContent.results
             [{ tool_use_id := "id1", content := "chunk A" }] }],
       tool_results :=
         some [{ tool_use_id := "id1", content := "chunk A" }] : RoundRecord
     }).tool_results =
       some (executeToolsList mgrOk toolUseResponse.content) ∧
    (generate_response svcAllToolUse "q" none none (some mgrOk) 2).answer =
      _extract_final_response toolUseResponse ∧
    (generate_response svcAllToolUse "q" none none (some mgrOk) 2).rounds.length = 2 ∧
    (generate_response svcAllToolUse "q" none none (some mgrOk) 2).answer =
      FALLBACK_MESSAGE :=
  ⟨by decide,
   (c3_final_round_tool_use_terminates svcAllToolUse "q" none none mgrOk 2
      { raised := none, response := toolUseResponse,
        messages := [userMsg,
          { role := "assistant",
            content := MessageContent.blocks toolUseResponse.content },
          { role := "user",
            content := MessageContent.results
              [{ tool_use_id := "id1", content := "chunk A" }] }],
        tool_results := some [{ tool_use_id := "id1", content := "chunk A" }] }
      (by decide) (by decide) (by decide)).1,
   (c3_final_round_tool_use_terminates svcAllToolUse "q" none none mgrOk 2
      { raised := none, response := toolUseResponse,
        messages := [userMsg,
          { role := "assistant",
            content := MessageContent.blocks toolUseResponse.content },
          { role := "user",
            content := MessageContent.results
              [{ tool_use_id := "id1", content := "chunk A" }] }],
        tool_results := some [{ tool_use_id := "id1", content := "chunk A" }] }
      (by decide) (by decide) (by decide)).2.1,
   (c3_final_round_tool_use_terminates svcAllToolUse "q" none none mgrOk 2
      { raised := none, response := toolUseResponse,
        messages := [userMsg,
          { role := "assistant",
            content := MessageContent.blocks toolUseResponse.content },
          { role := "user",
            content := MessageContent.results
              [{ tool_use_id := "id1", content := "chunk A" }] }],
        tool_results := some [{ tool_use_id := "id1", content := "chunk A" }] }
      (by decide) (by decide) (by decide)).2.2.1,
   (c3_final_round_tool_use_terminates svcAllToolUse "q" none none mgrOk 2
      { raised := none, response := toolUseResponse,
        messages := [userMsg,
          { role := "assistant",
            content := MessageContent.blocks toolUseResponse.content },
          { role := "user",
            content := MessageContent.results
              [{ tool_use_id := "id1", content := "chunk A" }] }],
        tool_results := some [{ tool_use_id := "id1", content := "chunk A" }] }
      (by decide) (by decide) (by decide)).2.2.2 (by decide)⟩

/-- C4: when a recorded round with round number below max_rounds has a
response whose stop_reason is not tool_use, the exchange terminates
immediately: that record is the last one (no further service call),
no tools were executed for it, and the answer is extracted from that
response. -/
theorem c4_non_tool_use_terminates_early
    (service : Service) (query : String) (conversation_history : Option String)
    (tools : Option (List ToolSchema)) (tool_manager : Option ToolManager)
    (max_rounds i : Nat) (rec : RoundRecord)
    (h1 : 1 ≤ max_rounds)
    (hget : (generate_response service query conversation_history tools tool_manager
      max_rounds).rounds[i]? = some rec)
    (hk : i + 1 < max_rounds)
    (hstop : rec.response.stop_reason ≠ "tool_use") :
    (generate_response service query conversation_history tools tool_manager
      max_rounds).rounds.length = i + 1 ∧
    rec.tool_results = none ∧
    (generate_response service query conversation_history tools tool_manager
      max_rounds).answer = _extract_final_response rec.response := by
  unfold generate_response at hget ⊢
  obtain ⟨ha, hb, hc, _hd⟩ := generateLoop_terminal_end service
    (_build_system_content conversation_history max_rounds) tools tool_manager
    max_rounds max_rounds [{ role := "user", content := MessageContent.text query }] 1 []
    i rec hget (by simp) hstop
  exact ⟨ha, hb, hc⟩

/-- Witness for C4: a text-only round 1 with max_rounds 3 terminates
after one service call. -/
theorem c4_witness :
    1 ≤ 3 ∧
    ((generate_response svcAllEnd "q" none none (some mgrOk) 3).rounds[0]? =
      some { raised := none, response := endResponse, messages := [userMsg],
             tool_results := none }) ∧
    0 + 1 < 3 ∧
    ({ raised := none, response := endResponse, messages := [userMsg],
       tool_results := none : RoundRecord }).response.stop_reason ≠ "tool_use" ∧
    ((generate_response svcAllEnd "q" none none (some mgrOk) 3).rounds.length = 0 + 1 ∧
     ({ raised := none, response := endResponse, messages := [userMsg],
        tool_results := none : RoundRecord }).tool_results = none ∧
     (generate_response svcAllEnd "q" none none (some mgrOk) 3).answer =
       _extract_final_response
         ({ raised := none, response := endResponse, messages := [userMsg],
            tool_results := none : RoundRecord }).response) :=
  ⟨by decide, by decide, by decide, by decide,
   c4_non_tool_use_terminates_early svcAllEnd "q" none none (some mgrOk) 3 0 _
     (by decide) (by decide) (by decide) (by decide)⟩

/-- C5 counterexample: the claim that the answer equals all text
blocks joined with single spaces fails on the code, which strips each
text block and drops whitespace-only blocks: a terminal response with
text blocks "  partial answer  " and " " yields "partial answer",
not their verbatim join, and a single whitespace-only text block
yields the fallback message although a text block is present. -/
theorem c5_extract_counterexample :
    (_extract_final_response
        { stop_reason := "end_turn",
          content := [ContentBlock.text "  partial answer  ", ContentBlock.text " "] } =
      "partial answer") ∧
    (specExtractFinalResponse
        { stop_reason := "end_turn",
          content := [ContentBlock.text "  partial answer  ", ContentBlock.text " "] } ≠
      "partial answer") ∧
    (_extract_final_response
        { stop_reason := "end_turn", content := [ContentBlock.text "   "] } =
      FALLBACK_MESSAGE) ∧
    (specExtractFinalResponse
        { stop_reason := "end_turn", content := [ContentBlock.text "   "] } = "   ") := by
  refine ⟨?_, ?_, ?_, ?_⟩ <;> decide

/-- C5 as amended: at finalization the answer equals the text blocks
of the terminal response that contain non-whitespace content, each
stripped of surrounding whitespace, joined with single spaces in
block order; when no such block exists (including whitespace-only
text blocks and a response with empty content) the answer is the
fixed fallback string. -/
theorem c5_extract_joins_stripped_text_blocks (response : Response) :
    _extract_final_response response =
      (if (allTextBlocks response.content).filterMap
            (fun t => if pyStrip t = "" then none else some (pyStrip t)) = [] then
        FALLBACK_MESSAGE
      else
        joinSpace ((allTextBlocks response.content).filterMap
          (fun t => if pyStrip t = "" then none else some (pyStrip t)))) := by
  rw [← extractTextBlocks_eq_filterMap]
  by_cases hcontent : response.content = []
  · simp [_extract_final_response, hcontent, extractTextBlocks]
  · unfold _extract_final_response
    rw [if_neg hcontent]

/-- C6: when the service call of a round raised, no exception
propagates: the recorded response of that round is the synthesized
terminal one (stop_reason end_turn with exactly one text block
describing the failure), that round is the last (the exchange
finalizes in it), and the answer is extracted from the synthesized
response. -/
theorem c6_service_failure_synthesizes_terminal_response
    (service : Service) (query : String) (conversation_history : Option String)
    (tools : Option (List ToolSchema)) (tool_manager : Option ToolManager)
    (max_rounds i : Nat) (rec : RoundRecord) (e : String)
    (h1 : 1 ≤ max_rounds)
    (hget : (generate_response service query conversation_history tools tool_manager
      max_rounds).rounds[i]? = some rec)
    (hraised : rec.raised = some e) :
    rec.response.stop_reason = "end_turn" ∧
    rec.response.content = [ContentBlock.text ("API call failed: " ++ e)] ∧
    (generate_response service query conversation_history tools tool_manager
      max_rounds).rounds.length = i + 1 ∧
    (generate_response service query conversation_history tools tool_manager
      max_rounds).answer = _extract_final_response rec.response := by
  unfold generate_response at hget ⊢
  have hmem : rec ∈ (generateLoop service
      (_build_system_content conversation_history max_rounds) tools tool_manager
      max_rounds max_rounds [{ role := "user", content := MessageContent.text query }]
      1 []).rounds := by
    rcases List.getElem?_eq_some.mp hget with ⟨hlt, hel⟩
    exact hel ▸ List.getElem_mem hlt
  have hresp := generateLoop_raised service
    (_build_system_content conversation_history max_rounds) tools tool_manager
    max_rounds max_rounds [{ role := "user", content := MessageContent.text query }] 1 []
    (by intro r hr; exact absurd hr (List.not_mem_nil r)) rec hmem e hraised
  have hstop : rec.response.stop_reason ≠ "tool_use" := by
    rw [hresp]
    show ("end_turn" : String) ≠ "tool_use"
    decide
  obtain ⟨ha, _hb, hc, _hd⟩ := generateLoop_terminal_end service
    (_build_system_content conversation_history max_rounds) tools tool_manager
    max_rounds max_rounds [{ role := "user", content := MessageContent.text query }] 1 []
    i rec hget (by simp) hstop
  refine ⟨?_, ?_, ha, hc⟩
  · rw [hresp]
    rfl
  · rw [hresp]
    rfl

/-- Witness for C6 under total service failure in round 1. -/
theorem c6_witness :
    1 ≤ 2 ∧
    ((generate_response svcAllFail "q" none none (some mgrOk) 2).rounds[0]? =
      some { raised := some "network down",
             response := _create_error_response "API call failed: network down",
             messages := [userMsg], tool_results := none }) ∧
    ({ raised := some "network down",
       response := _create_error_response "API call failed: network down",
       messages := [userMsg], tool_results := none : RoundRecord }).raised =
      some "network down" ∧
    (({ raised := some "network down",
        response := _create_error_response "API call failed: network down",
        messages := [userMsg], tool_results := none : RoundRecord }).response.stop_reason =
        "end_turn" ∧
     ({ raised := some "network down",
        response := _create_error_response "API call failed: network down",
        messages := [userMsg], tool_results := none : RoundRecord }).response.content =
        [ContentBlock.text ("API call failed: " ++ "network down")] ∧
     (generate_response svcAllFail "q" none none (some mgrOk) 2).rounds.length = 0 + 1 ∧
     (generate_response svcAllFail "q" none none (some mgrOk) 2).answer =
       _extract_final_response
         ({ raised := some "network down",
            response := _create_error_response "API call failed: network down",
            messages := [userMsg], tool_results := none : RoundRecord }).response) :=
  ⟨by decide, by decide, by decide,
   c6_service_failure_synthesizes_terminal_response svcAllFail "q" none none (some mgrOk)
     2 0 _ "network down" (by decide) (by decide) (by decide)⟩

/-- C7: executing the tools of a response yields exactly one
tool_result per tool_use block, in listed order, carrying the
matching request id; a capability failure is not propagated and is
replaced by the descriptive failure string. -/
theorem c7_tool_results_match_requests (response : Response) (tool_manager : ToolManager) :
    _execute_tools_with_error_handling response tool_manager =
      (toolUseRequests response.content).map
        (fun req =>
          { tool_use_id := req.1,
            content :=
              match tool_manager.execute_tool req.2.1 req.2.2 with
              | Except.ok s => s
              | Except.error e => "Tool execution failed: " ++ e }) := by
  unfold _execute_tools_with_error_handling
  rw [executeToolsList_eq_map]
  have hf : (fun req : String × String × ToolInput =>
      toolResultFor tool_manager req.1 req.2.1 req.2.2) =
      (fun req : String × String × ToolInput =>
        ({ tool_use_id := req.1,
           content :=
             match tool_manager.execute_tool req.2.1 req.2.2 with
             | Except.ok s => s
             | Except.error e => "Tool execution failed: " ++ e } : ToolResult)) := by
    funext req
    cases hr : tool_manager.execute_tool req.2.1 req.2.2 with
    | ok s => simp [toolResultFor, hr]
    | error e => simp [toolResultFor, hr]
  rw [hf]

/-- C8: when no tool manager is configured and the recorded response
requests tool use, the exchange terminates after exactly one service
call with the fixed message about missing tool execution, and no
tools are executed. -/
theorem c8_no_tool_manager_fixed_message
    (service : Service) (query : String) (conversation_history : Option String)
    (tools : Option (List ToolSchema)) (max_rounds : Nat) (rec : RoundRecord)
    (h1 : 1 ≤ max_rounds)
    (hlast : (generate_response service query conversation_history tools none
      max_rounds).rounds.getLast? = some rec)
    (hstop : rec.response.stop_reason = "tool_use") :
    (generate_response service query conversation_history tools none
      max_rounds).rounds.length = 1 ∧
    (generate_response service query conversation_history tools none
      max_rounds).answer = NO_TOOL_MANAGER_MESSAGE ∧
    rec.tool_results = none := by
  obtain ⟨n, rfl⟩ : ∃ n, max_rounds = n + 1 := ⟨max_rounds - 1, by omega⟩
  unfold generate_response at hlast ⊢
  by_cases hstop2 : (runSingleRound service
      [{ role := "user", content := MessageContent.text query }]
      (_build_system_content conversation_history (n + 1)) tools 1 (n + 1)).2.stop_reason =
      "tool_use"
  · simp only [generateLoop, hstop2, if_true] at hlast ⊢
    rw [List.getLast?_concat] at hlast
    injection hlast with hrec
    subst hrec
    refine ⟨?_, ?_, ?_⟩ <;> simp
  · simp only [generateLoop, hstop2, if_false] at hlast
    rw [List.getLast?_concat] at hlast
    injection hlast with hrec
    subst hrec
    exact absurd hstop hstop2

/-- Witness for C8: a tool-requesting round 1 with no tool manager. -/
theorem c8_witness :
    1 ≤ 2 ∧
    ((generate_response svcAllToolUse "q" none none none 2).rounds.getLast? =
      some { raised := none, response := toolUseResponse, messages := [userMsg],
             tool_results := none }) ∧
    ({ raised := none, response := toolUseResponse, messages := [userMsg],
       tool_results := none : RoundRecord }).response.stop_reason = "tool_use" ∧
    ((generate_response svcAllToolUse "q" none none none 2).rounds.length = 1 ∧
     (generate_response svcAllToolUse "q" none none none 2).answer =
       NO_TOOL_MANAGER_MESSAGE ∧
     ({ raised := none, response := toolUseResponse, messages := [userMsg],
        tool_results := none : RoundRecord }).tool_results = none) :=
  ⟨by decide, by decide, by decide,
   c8_no_tool_manager_fixed_message svcAllToolUse "q" none none 2 _
     (by decide) (by decide) (by decide)⟩

/-- C9 counterexample: a non-final round whose response triggers the
tool-execution path (stop_reason tool_use with a tool manager
configured) but carries no tool_use block hands the next round a
sequence extended by exactly one entry (the assistant turn), not two:
the user-role tool-result turn is skipped because the result list is
empty. -/
theorem c9_growth_counterexample :
    _prepare_next_round [userMsg]
        { stop_reason := "tool_use", content := [ContentBlock.text "thinking"] } mgrOk =
      [userMsg,
       { role := "assistant",
         content := MessageContent.blocks [ContentBlock.text "thinking"] }] ∧
    (_prepare_next_round [userMsg]
        { stop_reason := "tool_use", content := [ContentBlock.text "thinking"] }
        mgrOk).length ≠ [userMsg].length + 2 := by
  refine ⟨?_, ?_⟩ <;> decide

/-- C9 as amended: for a round whose response carries at least one
tool_use block, the sequence handed to the next round equals the
previous one extended by exactly two entries: one assistant turn with
the raw response content, then one user-role turn carrying the
ordered tool results; when the response carries no tool_use block,
only the assistant turn is appended; and a terminal round with no
tool use adds zero entries — the message list the method holds when
it returns is exactly the list that terminal round was called with. -/
theorem c9_prepare_next_round_growth (messages : List Message) (response : Response)
    (tool_manager : ToolManager) :
    (toolUseRequests response.content ≠ [] →
      _prepare_next_round messages response tool_manager =
        messages ++
          [{ role := "assistant", content := MessageContent.blocks response.content },
           { role := "user",
             content := MessageContent.results
               (_execute_tools_with_error_handling response tool_manager) }]) ∧
    (toolUseRequests response.content = [] →
      _prepare_next_round messages response tool_manager =
        messages ++
          [{ role := "assistant", content := MessageContent.blocks response.content }]) ∧
    (∀ (service : Service) (query : String) (conversation_history : Option String)
       (tools : Option (List ToolSchema)) (mgr2 : Option ToolManager)
       (max_rounds i : Nat) (rec : RoundRecord),
      (generate_response service query conversation_history tools mgr2
        max_rounds).rounds[i]? = some rec →
      rec.response.stop_reason ≠ "tool_use" →
      (generate_response service query conversation_history tools mgr2
        max_rounds).final_messages = rec.messages) := by
  have hempty : _execute_tools_with_error_handling response tool_manager = [] ↔
      toolUseRequests response.content = [] := by
    unfold _execute_tools_with_error_handling
    rw [executeToolsList_eq_map]
    exact List.map_eq_nil_iff
  refine ⟨?_, ?_, ?_⟩
  · intro hne
    simp only [_prepare_next_round, prepareWithResults]
    rw [if_neg (fun hh => hne (hempty.mp hh))]
    rw [List.append_assoc]
    rfl
  · intro he
    simp only [_prepare_next_round, prepareWithResults]
    rw [if_pos (hempty.mpr he)]
  · intro service query conversation_history tools mgr2 max_rounds i rec hget hstop
    unfold generate_response at hget ⊢
    obtain ⟨_ha, _hb, _hc, hd⟩ := generateLoop_terminal_end service
      (_build_system_content conversation_history max_rounds) tools mgr2
      max_rounds max_rounds [{ role := "user", content := MessageContent.text query }]
      1 [] i rec hget (by simp) hstop
    exact hd

/-- Witness for C9: a response with one tool_use block extends the
sequence by the two entries, and a concrete terminal round with no
tool use leaves the message list unextended. -/
theorem c9_growth_witness :
    (toolUseRequests toolUseResponse.content ≠ [] ∧
     _prepare_next_round [userMsg] toolUseResponse mgrOk =
       [userMsg] ++
         [{ role := "assistant", content := MessageContent.blocks toolUseResponse.content },
          { role := "user",
            content := MessageContent.results
              (_execute_tools_with_error_handling toolUseResponse mgrOk) }]) ∧
    ((generate_response svcAllEnd "q" none none (some mgrOk) 2).rounds[0]? =
      some { raised := none, response := endResponse, messages := [userMsg],
             tool_results := none }) ∧
    ({ raised := none, response := endResponse, messages := [userMsg],
       tool_results := none : RoundRecord }).response.stop_reason ≠ "tool_use" ∧
    (generate_response svcAllEnd "q" none none (some mgrOk) 2).final_messages =
      ({ raised := none, response := endResponse, messages := [userMsg],
         tool_results := none : RoundRecord }).messages :=
  ⟨⟨by decide, (c9_prepare_next_round_growth [userMsg] toolUseResponse mgrOk).1 (by decide)⟩,
   by decide, by decide,
   (c9_prepare_next_round_growth [userMsg] toolUseResponse mgrOk).2.2 svcAllEnd "q"
     none none (some mgrOk) 2 0
     { raised := none, response := endResponse, messages := [userMsg],
       tool_results := none }
     (by decide) (by decide)⟩

/-- C10: preparing the next round never mutates the list object the
caller holds: under reference semantics the caller reference still
dereferences to the same entries afterwards, the returned reference
is a different object, and that fresh object holds exactly the pure
result of _prepare_next_round. -/
theorem c10_prepare_next_round_preserves_caller
    (h : PyHeap) (messages : Nat) (response : Response) (tool_manager : ToolManager)
    (hm : messages < h.lists.length) :
    heapGet (prepareNextRoundRef h messages response tool_manager).1 messages =
      heapGet h messages ∧
    (prepareNextRoundRef h messages response tool_manager).2 ≠ messages ∧
    heapGet (prepareNextRoundRef h messages response tool_manager).1
        (prepareNextRoundRef h messages response tool_manager).2 =
      _prepare_next_round (heapGet h messages) response tool_manager := by
  rw [prepareNextRoundRef_eq]
  refine ⟨?_, ?_, ?_⟩
  · simp only [heapGet]
    exact listGetD_append_left h.lists _ messages [] hm
  · show h.lists.length ≠ messages
    omega
  · simp only [heapGet]
    exact listGetD_append_length h.lists _ []

/-- Witness for C10 at a one-object heap. -/
theorem c10_witness :
    0 < (PyHeap.mk [[userMsg]]).lists.length ∧
    (heapGet (prepareNextRoundRef (PyHeap.mk [[userMsg]]) 0 toolUseResponse mgrOk).1 0 =
        heapGet (PyHeap.mk [[userMsg]]) 0 ∧
     (prepareNextRoundRef (PyHeap.mk [[userMsg]]) 0 toolUseResponse mgrOk).2 ≠ 0 ∧
     heapGet (prepareNextRoundRef (PyHeap.mk [[userMsg]]) 0 toolUseResponse mgrOk).1
         (prepareNextRoundRef (PyHeap.mk [[userMsg]]) 0 toolUseResponse mgrOk).2 =
       _prepare_next_round (heapGet (PyHeap.mk [[userMsg]]) 0) toolUseResponse mgrOk) :=
  ⟨by decide,
   c10_prepare_next_round_preserves_caller (PyHeap.mk [[userMsg]]) 0 toolUseResponse mgrOk
     (by decide)⟩

end AIGen
